import Mathlib

/-!
Shallow embedding of `src/src/utils/anomalyDetector.ts` (class `AnomalyDetector`)
together with the parts of `src/src/types/security.ts` the claims need.

Modelling conventions:
* JavaScript numbers are modelled as `ℚ` (packet sizes, scores, weights,
  frequencies) or as `Nat`/`Int` where the source only ever holds integers
  (ports, counters, millisecond timestamps).
* `Date.now()` is an explicit parameter `now : Int` threaded to the methods
  that read it (`analyzeFrequency`, `analyzeBehavior`).  The source calls
  `Date.now()` inside each filter callback; the model uses one fixed reading
  per `analyzePacket` call, i.e. the clock does not tick within one call.
* `Map<K, V>` objects are association lists in insertion order: `set` on an
  existing key updates it in place, a new key is appended, matching the
  iteration order of a JavaScript `Map`.
* The regular expressions of `isPrivateIP` / `isSuspiciousIP` are anchored
  prefix tests and are modelled with `String.startsWith`.
* `new Date(timestamp).getHours()` is modelled with the UTC timezone:
  `(timestamp / 3600000) mod 24` with floor division.
* Template strings are modelled by concatenation with `toString`; no claim
  depends on the exact text.  The formatted explanation string is modelled by
  the structure `Explanation` holding its informational content.
-/

/-- The `type` field of `AnomalyFactor` in the source (string union). -/
inductive FactorType
| SIZE
| FREQUENCY
| PROTOCOL
| TIMING
| GEOLOCATION
| BEHAVIOR
| SIGNATURE
deriving DecidableEq, Repr

/-- The four-level verdict returned by `determineVerdict`. -/
inductive Verdict
| NORMAL
| SUSPICIOUS
| ANOMALOUS
| MALICIOUS
deriving DecidableEq, Repr

/-- `NetworkPacket` from `src/src/types/security.ts` (the fields the engine
reads; `id` and the optional `payload` are never inspected by the detector and
are omitted).  `protocol` is kept as a string since the source compares it with
string literals and stores it in string-keyed maps. -/
structure NetworkPacket where
  timestamp : Int
  sourceIP : String
  destIP : String
  sourcePort : Nat
  destPort : Nat
  protocol : String
  size : ℚ
  flags : List String
deriving DecidableEq, Repr

/-- `BaselineMetrics` as built by `initializeBaseline` / `updateBaseline`. -/
structure BaselineMetrics where
  avgPacketSize : ℚ
  commonPorts : List Nat
  typicalProtocols : List String
  normalFrequency : ℚ
  establishedConnections : List String
deriving DecidableEq, Repr

/-- `AnomalyFactor` from the source: one heuristic finding. -/
structure AnomalyFactor where
  type : FactorType
  description : String
  score : ℚ
  weight : ℚ
  evidence : String
deriving DecidableEq, Repr

/-- Informational content of the string built by `generateExplanation`:
which branch was taken, the verdict and score cited, and the descriptions of
the top contributing factors, in order. -/
structure Explanation where
  isNormalMessage : Bool
  verdict : Verdict
  score : ℚ
  primaryConcerns : List String
deriving DecidableEq, Repr

/-- `AnomalyAnalysis`: the record returned by `analyzePacket`. -/
structure AnomalyAnalysis where
  score : ℚ
  factors : List AnomalyFactor
  baseline : BaselineMetrics
  verdict : Verdict
  explanation : Explanation
deriving DecidableEq, Repr

/-- The private mutable state of the `AnomalyDetector` singleton. -/
structure DetectorState where
  baseline : BaselineMetrics
  packetHistory : List NetworkPacket
  connectionPatterns : List (String × Nat)
  protocolStats : List (String × Nat)
  portStats : List (Nat × Nat)
deriving DecidableEq, Repr

/-- `map.get(k) || 0` on a JavaScript `Map` modelled as an association list. -/
def mapGetD [DecidableEq α] (m : List (α × Nat)) (k : α) : Nat :=
  match m.find? (fun kv => decide (kv.1 = k)) with
  | some kv => kv.2
  | none => 0

/-- `map.set(k, (map.get(k) || 0) + 1)`: an existing key keeps its position
and gets the incremented count, a new key is appended with count 1. -/
def mapIncr [DecidableEq α] (m : List (α × Nat)) (k : α) : List (α × Nat) :=
  if m.any (fun kv => decide (kv.1 = k)) then
    m.map (fun kv => if kv.1 = k then (kv.1, kv.2 + 1) else kv)
  else m ++ [(k, 1)]

/-- `initializeBaseline` from the source: the hard-coded defaults. -/
def initializeBaseline : BaselineMetrics :=
  { avgPacketSize := 512
    commonPorts := [80, 443, 22, 21, 25, 53, 110, 143, 993, 995]
    typicalProtocols := ["TCP", "UDP", "HTTP", "HTTPS"]
    normalFrequency := 10
    establishedConnections := ["192.168.1.1", "8.8.8.8", "1.1.1.1"] }

/-- The state built by the constructor: default baseline, empty history and
empty counters. -/
def initialState : DetectorState :=
  { baseline := initializeBaseline
    packetHistory := []
    connectionPatterns := []
    protocolStats := []
    portStats := [] }

/-- `Math.round` as JavaScript defines it: half-way cases round toward
positive infinity, so `round(x) = ⌊x + 1/2⌋`. -/
def jsRound (q : ℚ) : Int :=
  ⌊q + (1 : ℚ) / 2⌋

/-- `new Date(t).getHours()` modelled in the UTC timezone: the hour-of-day of
a millisecond timestamp, floor division semantics. -/
def jsHours (t : Int) : Int :=
  (t.ediv 3600000).emod 24

/-- `updateStatistics`: bump the three lifetime counters. -/
def updateStatistics (s : DetectorState) (packet : NetworkPacket) : DetectorState :=
  { s with
    connectionPatterns := mapIncr s.connectionPatterns (packet.sourceIP ++ ":" ++ packet.destIP)
    protocolStats := mapIncr s.protocolStats packet.protocol
    portStats := mapIncr s.portStats packet.destPort }

/-- `analyzePacketSize`: size-deviation, extremely-large and suspiciously-small
checks. -/
def analyzePacketSize (s : DetectorState) (packet : NetworkPacket) : List AnomalyFactor :=
  let sizeDeviation := |packet.size - s.baseline.avgPacketSize| / s.baseline.avgPacketSize
  (if 2 < sizeDeviation then
    [{ type := .SIZE
       description := "Unusual packet size detected"
       score := min (sizeDeviation * 30) 100
       weight := 0.2
       evidence := "Packet size: " ++ toString packet.size ++ "B, Expected: ~"
         ++ toString s.baseline.avgPacketSize ++ "B ("
         ++ toString (jsRound (sizeDeviation * 100)) ++ "% deviation)" }]
   else []) ++
  (if 10000 < packet.size then
    [{ type := .SIZE
       description := "Extremely large packet detected"
       score := 85
       weight := 0.3
       evidence := "Packet size: " ++ toString packet.size
         ++ "B exceeds normal threshold (10KB)" }]
   else []) ++
  (if packet.size < 20 ∧ packet.protocol ≠ "ICMP" then
    [{ type := .SIZE
       description := "Suspiciously small packet"
       score := 60
       weight := 0.15
       evidence := "Packet size: " ++ toString packet.size
         ++ "B is unusually small for " ++ packet.protocol }]
   else [])

/-- `analyzeFrequency`: 10-second per-source rate and 1-second burst window,
both measured from `Date.now()` (the parameter `now`). -/
def analyzeFrequency (now : Int) (s : DetectorState) (packet : NetworkPacket) :
    List AnomalyFactor :=
  let recentPackets := s.packetHistory.filter
    (fun p => decide (now - p.timestamp < 10000 ∧ p.sourceIP = packet.sourceIP))
  let frequency : ℚ := (recentPackets.length : ℚ) / 10
  (if s.baseline.normalFrequency * 5 < frequency then
    [{ type := .FREQUENCY
       description := "High frequency traffic from source"
       score := min (frequency / s.baseline.normalFrequency * 20) 100
       weight := 0.25
       evidence := toString frequency ++ " packets/sec from " ++ packet.sourceIP
         ++ " (normal: " ++ toString s.baseline.normalFrequency ++ "/sec)" }]
   else []) ++
  (let burstWindow := s.packetHistory.filter
    (fun p => decide (now - p.timestamp < 1000 ∧ p.sourceIP = packet.sourceIP))
   if 50 < burstWindow.length then
    [{ type := .FREQUENCY
       description := "Traffic burst detected"
       score := 90
       weight := 0.3
       evidence := toString burstWindow.length ++ " packets in 1 second from "
         ++ packet.sourceIP }]
   else [])

/-- `analyzeProtocol`: atypical protocol, large ICMP, UDP to TCP-style ports. -/
def analyzeProtocol (s : DetectorState) (packet : NetworkPacket) : List AnomalyFactor :=
  (if packet.protocol ∉ s.baseline.typicalProtocols then
    [{ type := .PROTOCOL
       description := "Unusual protocol detected"
       score := 40
       weight := 0.15
       evidence := "Protocol " ++ packet.protocol
         ++ " is not commonly used in this network" }]
   else []) ++
  (if packet.protocol = "ICMP" ∧ 1000 < packet.size then
    [{ type := .PROTOCOL
       description := "Large ICMP packet (potential tunneling)"
       score := 75
       weight := 0.25
       evidence := "ICMP packet with " ++ toString packet.size
         ++ "B payload (normal: <100B)" }]
   else []) ++
  (if packet.protocol = "UDP" ∧ packet.destPort ∈ [22, 23, 80, 443] then
    [{ type := .PROTOCOL
       description := "Unusual protocol/port combination"
       score := 65
       weight := 0.2
       evidence := "UDP traffic to port " ++ toString packet.destPort
         ++ " (typically TCP)" }]
   else [])

/-- The fixed vulnerable-service port list of `analyzePorts`. -/
def vulnerablePorts : List Nat :=
  [1433, 3389, 5432, 27017, 6379, 9200]

/-- `analyzePorts`: uncommon destination port, high source port, vulnerable
service port.  `portStats` has already been bumped for this packet. -/
def analyzePorts (s : DetectorState) (packet : NetworkPacket) : List AnomalyFactor :=
  (if packet.destPort ∉ s.baseline.commonPorts then
    (let portUsage := mapGetD s.portStats packet.destPort
     if portUsage < 5 then
      [{ type := .PROTOCOL
         description := "Connection to uncommon port"
         score := 45
         weight := 0.1
         evidence := "Port " ++ toString packet.destPort ++ " is rarely used ("
           ++ toString portUsage ++ " previous connections)" }]
     else [])
   else []) ++
  (if 60000 < packet.sourcePort then
    [{ type := .BEHAVIOR
       description := "High source port number"
       score := 30
       weight := 0.05
       evidence := "Source port " ++ toString packet.sourcePort
         ++ " indicates potential automated scanning" }]
   else []) ++
  (if packet.destPort ∈ vulnerablePorts then
    [{ type := .PROTOCOL
       description := "Connection to potentially vulnerable service"
       score := 55
       weight := 0.2
       evidence := "Port " ++ toString packet.destPort
         ++ " hosts services commonly targeted by attackers" }]
   else [])

/-- `analyzeTiming`: off-hours check on the event's own timestamp, and the
100 ms rapid-sequential window, which compares history timestamps with the
event's timestamp (no `Date.now()` here). -/
def analyzeTiming (s : DetectorState) (packet : NetworkPacket) : List AnomalyFactor :=
  let hour := jsHours packet.timestamp
  (if hour < 6 ∨ 22 < hour then
    [{ type := .TIMING
       description := "Off-hours network activity"
       score := 35
       weight := 0.1
       evidence := "Activity at " ++ toString hour
         ++ ":00 (outside normal business hours 6-22)" }]
   else []) ++
  (let recentSameSource := s.packetHistory.filter
    (fun p => decide (p.sourceIP = packet.sourceIP ∧ |p.timestamp - packet.timestamp| < 100))
   if 10 < recentSameSource.length then
    [{ type := .TIMING
       description := "Rapid sequential connections"
       score := 70
       weight := 0.2
       evidence := toString recentSameSource.length ++ " connections within 100ms from "
         ++ packet.sourceIP }]
   else [])

/-- An anchored regular expression `^lit` holds exactly when `lit` is a
prefix of the subject string; modelled character-wise on `String.data`. -/
def jsStartsWith (s pre : String) : Bool :=
  List.isPrefixOf pre.data s.data

/-- `isPrivateIP`: the anchored private-range prefixes, with the
`172.(16-31).` alternation expanded. -/
def isPrivateIP (ip : String) : Bool :=
  jsStartsWith ip ("10.") ||
  (["172.16.", "172.17.", "172.18.", "172.19.", "172.20.", "172.21.", "172.22.",
    "172.23.", "172.24.", "172.25.", "172.26.", "172.27.", "172.28.", "172.29.",
    "172.30.", "172.31."].any (fun pre => jsStartsWith ip pre)) ||
  jsStartsWith ip ("192.168.") ||
  jsStartsWith ip ("127.")

/-- `isSuspiciousIP`: the three documentation-range prefixes. -/
def isSuspiciousIP (ip : String) : Bool :=
  jsStartsWith ip ("203.0.113.") ||
  jsStartsWith ip ("198.51.100.") ||
  jsStartsWith ip ("192.0.2.")

/-- `analyzeGeolocation`: unknown external source, suspicious source range.
The source also computes `isInternalDest` from the destination address but
never uses it, so it is omitted here. -/
def analyzeGeolocation (s : DetectorState) (packet : NetworkPacket) : List AnomalyFactor :=
  (if ¬ isPrivateIP packet.sourceIP ∧ packet.sourceIP ∉ s.baseline.establishedConnections then
    [{ type := .GEOLOCATION
       description := "Connection from unknown external IP"
       score := 50
       weight := 0.15
       evidence := "External IP " ++ packet.sourceIP
         ++ " not in established connections list" }]
   else []) ++
  (if isSuspiciousIP packet.sourceIP then
    [{ type := .GEOLOCATION
       description := "Connection from suspicious IP range"
       score := 80
       weight := 0.25
       evidence := "IP " ++ packet.sourceIP ++ " matches known suspicious patterns" }]
   else [])

/-- `analyzeBehavior`: port-scan window of 60 seconds measured from
`Date.now()`, and the lifetime first-connection check.  The counters have
already been bumped for this packet. -/
def analyzeBehavior (now : Int) (s : DetectorState) (packet : NetworkPacket) :
    List AnomalyFactor :=
  let sourcePackets := s.packetHistory.filter
    (fun p => decide (p.sourceIP = packet.sourceIP ∧ now - p.timestamp < 60000))
  let uniquePorts := (sourcePackets.map (fun p => p.destPort)).dedup
  (if 20 < uniquePorts.length then
    [{ type := .BEHAVIOR
       description := "Port scanning behavior detected"
       score := 85
       weight := 0.3
       evidence := packet.sourceIP ++ " contacted " ++ toString uniquePorts.length
         ++ " different ports in 1 minute" }]
   else []) ++
  (let connectionCount := mapGetD s.connectionPatterns (packet.sourceIP ++ ":" ++ packet.destIP)
   if connectionCount = 1 then
    [{ type := .BEHAVIOR
       description := "New connection established"
       score := 20
       weight := 0.05
       evidence := "First observed connection between " ++ packet.sourceIP
         ++ " and " ++ packet.destIP }]
   else [])

/-- A malware signature from the fixed table of `analyzeSignatures`.  The
`"size:1337"` / `"port:4444"` pattern strings are modelled already split into
their kind and numeric value, as `matchesSignature` splits them. -/
inductive SigPattern
| size (v : ℚ)
| port (v : Nat)
deriving DecidableEq, Repr

/-- `matchesSignature`: the source compares `packet.size.toString()` (resp.
the ports) with the pattern value string; the decimal rendering of a
JavaScript number equals the digit string of `v` exactly when the number
equals `v`, so the comparison is modelled numerically. -/
def matchesSignature (packet : NetworkPacket) : SigPattern → Bool
  | .size v => decide (packet.size = v)
  | .port v => decide (packet.destPort = v) || decide (packet.sourcePort = v)

/-- The fixed `malwareSignatures` table, each with its description. -/
def malwareSignatures : List (SigPattern × String) :=
  [(.size 1337, "Known malware packet size"),
   (.port 4444, "Common backdoor port"),
   (.port 31337, "Elite hacker port")]

/-- `analyzeSignatures`: the signature table and the SYN+FIN stealth-scan
check. -/
def analyzeSignatures (packet : NetworkPacket) : List AnomalyFactor :=
  (malwareSignatures.filterMap (fun sig =>
    if matchesSignature packet sig.1 then
      some { type := .SIGNATURE
             description := sig.2
             score := 95
             weight := 0.4
             evidence := "Packet matches signature" }
    else none)) ++
  (if "SYN" ∈ packet.flags ∧ "FIN" ∈ packet.flags then
    [{ type := .SIGNATURE
       description := "Invalid TCP flag combination"
       score := 90
       weight := 0.35
       evidence := "SYN and FIN flags set simultaneously (TCP stealth scan)" }]
   else [])

/-- `calculateAnomalyScore`: 0 with no factors, otherwise the weighted mean,
rounded then capped at 100. -/
def calculateAnomalyScore (factors : List AnomalyFactor) : ℚ :=
  if factors = [] then 0
  else
    let weightedScore := (factors.map (fun f => f.score * f.weight)).sum
    let totalWeight := (factors.map (fun f => f.weight)).sum
    if 0 < totalWeight then min 100 ((jsRound (weightedScore / totalWeight) : ℚ)) else 0

/-- `determineVerdict`: the fixed thresholds. -/
def determineVerdict (score : ℚ) : Verdict :=
  if 80 ≤ score then .MALICIOUS
  else if 60 ≤ score then .ANOMALOUS
  else if 30 ≤ score then .SUSPICIOUS
  else .NORMAL

/-- The sort key of `generateExplanation`: `score × weight`. -/
def factorPriority (f : AnomalyFactor) : ℚ :=
  f.score * f.weight

/-- Stable insertion into a list, placing `a` before the first `b` with
`cond a b`. -/
def insertIf (cond : α → α → Bool) (a : α) : List α → List α
  | [] => [a]
  | b :: l => if cond a b then a :: b :: l else b :: insertIf cond a l

/-- A stable sort: elements that compare equal keep their original order.
`Array.prototype.sort` with a consistent comparator is required by the
ECMAScript specification to be stable, so its result equals the unique stable
sort and this insertion sort models it faithfully. -/
def stableSort (cond : α → α → Bool) (l : List α) : List α :=
  l.foldr (insertIf cond) []

/-- The in-place `factors.sort((a, b) => b.score*b.weight - a.score*a.weight)`
of `generateExplanation`: stable sort by priority, descending. -/
def sortByPriorityDesc (factors : List AnomalyFactor) : List AnomalyFactor :=
  stableSort (fun a b => decide (factorPriority b ≤ factorPriority a)) factors

/-- `generateExplanation`.  The source calls `factors.sort(...)`, and
`Array.prototype.sort` sorts the array IN PLACE before returning it, so the
very array later stored in the returned analysis is reordered; the model
therefore returns both the explanation content and the mutated factors list. -/
def generateExplanation (factors : List AnomalyFactor) (score : ℚ) (verdict : Verdict) :
    Explanation × List AnomalyFactor :=
  if factors = [] then
    ({ isNormalMessage := true, verdict := verdict, score := score, primaryConcerns := [] },
     factors)
  else
    let sorted := sortByPriorityDesc factors
    ({ isNormalMessage := false
       verdict := verdict
       score := score
       primaryConcerns := (sorted.take 3).map (fun f => f.description) },
     sorted)

/-- Lines 35-40 of `analyzePacket`: prepend to the capped history
(`unshift` then `slice(0, 1000)`) and bump the counters
(`updateStatistics`). -/
def stateAfterUpdate (s : DetectorState) (packet : NetworkPacket) : DetectorState :=
  updateStatistics { s with packetHistory := (packet :: s.packetHistory).take 1000 } packet

/-- Lines 43-50 of `analyzePacket`: the eight analyzer passes in their fixed
invocation order, accumulated into one list. -/
def passFactors (now : Int) (s2 : DetectorState) (packet : NetworkPacket) :
    List AnomalyFactor :=
  analyzePacketSize s2 packet ++
  analyzeFrequency now s2 packet ++
  analyzeProtocol s2 packet ++
  analyzePorts s2 packet ++
  analyzeTiming s2 packet ++
  analyzeGeolocation s2 packet ++
  analyzeBehavior now s2 packet ++
  analyzeSignatures packet

/-- `analyzePacket`: prepend to the capped history, bump the counters, run the
eight analyzer passes in their fixed order, aggregate, classify, explain.
Returns the analysis together with the updated engine state. -/
def analyzePacket (now : Int) (s : DetectorState) (packet : NetworkPacket) :
    AnomalyAnalysis × DetectorState :=
  let s2 := stateAfterUpdate s packet
  let factors := passFactors now s2 packet
  let score := calculateAnomalyScore factors
  let verdict := determineVerdict score
  let ex := generateExplanation factors score verdict
  ({ score := score
     factors := ex.2
     baseline := s2.baseline
     verdict := verdict
     explanation := ex.1 },
   s2)

/-- First-occurrence deduplication, as `[...new Set(array)]` produces. -/
def firstOccurrencesAux [DecidableEq α] (seen : List α) : List α → List α
  | [] => []
  | a :: l =>
    if a ∈ seen then firstOccurrencesAux seen l
    else a :: firstOccurrencesAux (a :: seen) l

/-- `[...new Set(array)]`: distinct elements in first-occurrence order. -/
def firstOccurrences [DecidableEq α] (l : List α) : List α :=
  firstOccurrencesAux [] l

/-- Occurrence count of `p` in `l`. -/
def countOccurrences (l : List Nat) (p : Nat) : Nat :=
  (l.filter (fun x => decide (x = p))).length

/-- `updateBaseline`: a no-op below 100 packets, otherwise recompute
`avgPacketSize` (arithmetic mean), `typicalProtocols` (distinct protocols) and
`commonPorts` (top-20 destination ports by count).  `Object.entries` over the
integer-keyed `portCounts` record yields keys in ascending numeric order and
the stable sort then orders them by count, descending. -/
def updateBaseline (s : DetectorState) (packets : List NetworkPacket) : DetectorState :=
  if packets.length < 100 then s
  else
    let sizes := packets.map (fun p => p.size)
    let avg := sizes.sum / (sizes.length : ℚ)
    let protocols := firstOccurrences (packets.map (fun p => p.protocol))
    let ports := packets.map (fun p => p.destPort)
    let keys := stableSort (fun a b => decide (a ≤ b)) (firstOccurrences ports)
    let entries := keys.map (fun p => (p, countOccurrences ports p))
    let sortedEntries := stableSort (fun a b => decide ((b.2 : Nat) ≤ a.2)) entries
    { s with baseline :=
      { s.baseline with
        avgPacketSize := avg
        typicalProtocols := protocols
        commonPorts := (sortedEntries.take 20).map (fun e => e.1) } }

/-- `getBaseline`: returns a shallow copy of the baseline (a value copy in the
model). -/
def getBaseline (s : DetectorState) : BaselineMetrics :=
  s.baseline

/-- The record returned by `getStatistics`. -/
structure Statistics where
  totalPackets : Nat
  uniqueConnections : Nat
  protocolDistribution : List (String × Nat)
  topPorts : List (Nat × Nat)
deriving DecidableEq, Repr

/-- `getStatistics`: history length, connection-map size, protocol counts and
the ten most-used destination ports. -/
def getStatistics (s : DetectorState) : Statistics :=
  { totalPackets := s.packetHistory.length
    uniqueConnections := s.connectionPatterns.length
    protocolDistribution := s.protocolStats
    topPorts := (stableSort (fun a b => decide ((b.2 : Nat) ≤ a.2)) s.portStats).take 10 }

/-- A sequence of `analyzePacket` calls (each with its own `Date.now()`
reading), keeping only the engine state. -/
def runEvents (evs : List (Int × NetworkPacket)) (s : DetectorState) : DetectorState :=
  evs.foldl (fun st ev => (analyzePacket ev.1 st ev.2).2) s

/-- In the source, `analyzePacket` stores `baseline: this.baseline` in the
returned record — a reference to the engine's live baseline object — and
`updateBaseline` assigns into that same object's fields in place
(`this.baseline.avgPacketSize = ...`).  Reading `result.baseline` at any
later point therefore yields the engine's baseline as it stands then.  This
observation function models that later read of a previously returned
result's `baseline` field. -/
def readResultBaseline (s : DetectorState) : BaselineMetrics :=
  s.baseline

/-! ## Supporting lemmas -/

theorem analyzePacket_fst_score (now : Int) (s : DetectorState) (packet : NetworkPacket) :
    (analyzePacket now s packet).1.score =
      calculateAnomalyScore (passFactors now (stateAfterUpdate s packet) packet) := rfl

theorem analyzePacket_fst_verdict (now : Int) (s : DetectorState) (packet : NetworkPacket) :
    (analyzePacket now s packet).1.verdict =
      determineVerdict (analyzePacket now s packet).1.score := by
  rw [analyzePacket_fst_score]
  rfl

theorem analyzePacket_fst_baseline (now : Int) (s : DetectorState) (packet : NetworkPacket) :
    (analyzePacket now s packet).1.baseline = (stateAfterUpdate s packet).baseline := rfl

theorem analyzePacket_snd (now : Int) (s : DetectorState) (packet : NetworkPacket) :
    (analyzePacket now s packet).2 = stateAfterUpdate s packet := rfl

theorem generateExplanation_snd (factors : List AnomalyFactor) (score : ℚ) (verdict : Verdict) :
    (generateExplanation factors score verdict).2 =
      if factors = [] then factors else sortByPriorityDesc factors := by
  rw [generateExplanation]
  split_ifs <;> rfl

theorem analyzePacket_fst_factors (now : Int) (s : DetectorState) (packet : NetworkPacket) :
    (analyzePacket now s packet).1.factors =
      (if passFactors now (stateAfterUpdate s packet) packet = [] then
        passFactors now (stateAfterUpdate s packet) packet
       else sortByPriorityDesc (passFactors now (stateAfterUpdate s packet) packet)) := by
  rw [analyzePacket, generateExplanation_snd]

theorem insertIf_perm (cond : α → α → Bool) (a : α) (l : List α) :
    (insertIf cond a l).Perm (a :: l) := by
  induction l with
  | nil => exact List.Perm.refl _
  | cons b t ih =>
    rw [insertIf]
    split
    · exact List.Perm.refl _
    · exact (ih.cons b).trans (List.Perm.swap a b t)

theorem stableSort_perm (cond : α → α → Bool) (l : List α) :
    (stableSort cond l).Perm l := by
  induction l with
  | nil => exact List.Perm.refl _
  | cons a t ih =>
    rw [show stableSort cond (a :: t) = insertIf cond a (stableSort cond t) from rfl]
    exact (insertIf_perm cond a _).trans (ih.cons a)

theorem sortByPriorityDesc_perm (l : List AnomalyFactor) :
    (sortByPriorityDesc l).Perm l :=
  stableSort_perm _ l

theorem mem_sortByPriorityDesc {f : AnomalyFactor} {l : List AnomalyFactor} :
    f ∈ sortByPriorityDesc l ↔ f ∈ l :=
  (sortByPriorityDesc_perm l).mem_iff

theorem sortByPriorityDesc_ne_nil {l : List AnomalyFactor} (h : l ≠ []) :
    sortByPriorityDesc l ≠ [] := by
  intro hnil
  exact h (List.Perm.eq_nil (hnil ▸ (sortByPriorityDesc_perm l).symm))

/-- Scores and weights as every analyzer emits them: a nonnegative score and a
positive weight. -/
def FactorOk (f : AnomalyFactor) : Prop :=
  0 ≤ f.score ∧ 0 < f.weight

theorem mem_ite_nil {c : Prop} [Decidable c] {l : List α} {x : α}
    (h : x ∈ if c then l else []) : c ∧ x ∈ l := by
  split_ifs at h with hc
  · exact ⟨hc, h⟩
  · simp at h

theorem analyzePacketSize_ok (s : DetectorState) (p : NetworkPacket) :
    ∀ f ∈ analyzePacketSize s p, FactorOk f := by
  intro f hf
  simp only [analyzePacketSize, List.mem_append] at hf
  rcases hf with (hf | hf) | hf
  · obtain ⟨hc, hm⟩ := mem_ite_nil hf
    simp only [List.mem_singleton] at hm
    subst hm
    exact ⟨le_min (by nlinarith) (by norm_num), by norm_num⟩
  · obtain ⟨hc, hm⟩ := mem_ite_nil hf
    simp only [List.mem_singleton] at hm
    subst hm
    exact ⟨by norm_num, by norm_num⟩
  · obtain ⟨hc, hm⟩ := mem_ite_nil hf
    simp only [List.mem_singleton] at hm
    subst hm
    exact ⟨by norm_num, by norm_num⟩

theorem analyzeFrequency_ok (now : Int) (s : DetectorState) (p : NetworkPacket)
    (hnf : 0 < s.baseline.normalFrequency) :
    ∀ f ∈ analyzeFrequency now s p, FactorOk f := by
  intro f hf
  simp only [analyzeFrequency, List.mem_append] at hf
  rcases hf with hf | hf
  · obtain ⟨hc, hm⟩ := mem_ite_nil hf
    simp only [List.mem_singleton] at hm
    subst hm
    refine ⟨le_min ?_ (by norm_num), by norm_num⟩
    exact mul_nonneg (div_nonneg (by positivity) hnf.le) (by norm_num)
  · obtain ⟨hc, hm⟩ := mem_ite_nil hf
    simp only [List.mem_singleton] at hm
    subst hm
    exact ⟨by norm_num, by norm_num⟩

theorem analyzeProtocol_ok (s : DetectorState) (p : NetworkPacket) :
    ∀ f ∈ analyzeProtocol s p, FactorOk f := by
  intro f hf
  simp only [analyzeProtocol, List.mem_append] at hf
  rcases hf with (hf | hf) | hf <;>
  · obtain ⟨hc, hm⟩ := mem_ite_nil hf
    simp only [List.mem_singleton] at hm
    subst hm
    exact ⟨by norm_num, by norm_num⟩

theorem analyzePorts_ok (s : DetectorState) (p : NetworkPacket) :
    ∀ f ∈ analyzePorts s p, FactorOk f := by
  intro f hf
  simp only [analyzePorts, List.mem_append] at hf
  rcases hf with (hf | hf) | hf
  · obtain ⟨hc, hm⟩ := mem_ite_nil hf
    obtain ⟨hc2, hm2⟩ := mem_ite_nil hm
    simp only [List.mem_singleton] at hm2
    subst hm2
    exact ⟨by norm_num, by norm_num⟩
  · obtain ⟨hc, hm⟩ := mem_ite_nil hf
    simp only [List.mem_singleton] at hm
    subst hm
    exact ⟨by norm_num, by norm_num⟩
  · obtain ⟨hc, hm⟩ := mem_ite_nil hf
    simp only [List.mem_singleton] at hm
    subst hm
    exact ⟨by norm_num, by norm_num⟩

theorem analyzeTiming_ok (s : DetectorState) (p : NetworkPacket) :
    ∀ f ∈ analyzeTiming s p, FactorOk f := by
  intro f hf
  simp only [analyzeTiming, List.mem_append] at hf
  rcases hf with hf | hf <;>
  · obtain ⟨hc, hm⟩ := mem_ite_nil hf
    simp only [List.mem_singleton] at hm
    subst hm
    exact ⟨by norm_num, by norm_num⟩

theorem analyzeGeolocation_ok (s : DetectorState) (p : NetworkPacket) :
    ∀ f ∈ analyzeGeolocation s p, FactorOk f := by
  intro f hf
  simp only [analyzeGeolocation, List.mem_append] at hf
  rcases hf with hf | hf <;>
  · obtain ⟨hc, hm⟩ := mem_ite_nil hf
    simp only [List.mem_singleton] at hm
    subst hm
    exact ⟨by norm_num, by norm_num⟩

theorem analyzeBehavior_ok (now : Int) (s : DetectorState) (p : NetworkPacket) :
    ∀ f ∈ analyzeBehavior now s p, FactorOk f := by
  intro f hf
  simp only [analyzeBehavior, List.mem_append] at hf
  rcases hf with hf | hf <;>
  · obtain ⟨hc, hm⟩ := mem_ite_nil hf
    simp only [List.mem_singleton] at hm
    subst hm
    exact ⟨by norm_num, by norm_num⟩

theorem analyzeSignatures_ok (p : NetworkPacket) :
    ∀ f ∈ analyzeSignatures p, FactorOk f := by
  intro f hf
  simp only [analyzeSignatures, List.mem_append] at hf
  rcases hf with hf | hf
  · obtain ⟨sig, hsig, hm⟩ := List.mem_filterMap.mp hf
    split_ifs at hm
    simp only [Option.some_inj] at hm
    subst hm
    exact ⟨by norm_num, by norm_num⟩
  · obtain ⟨hc, hm⟩ := mem_ite_nil hf
    simp only [List.mem_singleton] at hm
    subst hm
    exact ⟨by norm_num, by norm_num⟩

theorem passFactors_ok (now : Int) (s : DetectorState) (p : NetworkPacket)
    (hnf : 0 < s.baseline.normalFrequency) :
    ∀ f ∈ passFactors now s p, FactorOk f := by
  intro f hf
  simp only [passFactors, List.mem_append] at hf
  rcases hf with ((((((hf | hf) | hf) | hf) | hf) | hf) | hf) | hf
  exacts [analyzePacketSize_ok s p f hf,
    analyzeFrequency_ok now s p hnf f hf,
    analyzeProtocol_ok s p f hf,
    analyzePorts_ok s p f hf,
    analyzeTiming_ok s p f hf,
    analyzeGeolocation_ok s p f hf,
    analyzeBehavior_ok now s p f hf,
    analyzeSignatures_ok p f hf]

theorem jsRound_nonneg {q : ℚ} (h : 0 ≤ q) : 0 ≤ jsRound q := by
  rw [jsRound]
  exact Int.le_floor.mpr (by push_cast; linarith)

theorem jsRound_mono {a b : ℚ} (h : a ≤ b) : jsRound a ≤ jsRound b :=
  Int.floor_le_floor (by linarith)

theorem jsRound_hundred : jsRound 100 = 100 := by
  rw [jsRound]
  rw [Int.floor_eq_iff]
  constructor <;> norm_num

theorem jsRound_min_hundred (x : ℚ) :
    min 100 ((jsRound x : ℚ)) = ((jsRound (min 100 x) : ℚ)) := by
  rcases le_total x 100 with h | h
  · rw [min_eq_right h]
    have hle : jsRound x ≤ 100 := by
      have := jsRound_mono h
      rwa [jsRound_hundred] at this
    rw [min_eq_right]
    exact_mod_cast hle
  · rw [min_eq_left h, jsRound_hundred]
    have hge : (100 : Int) ≤ jsRound x := by
      rw [← jsRound_hundred]
      exact jsRound_mono h
    rw [min_eq_left]
    · norm_num
    · exact_mod_cast hge

theorem totalWeight_pos {factors : List AnomalyFactor} (hne : factors ≠ [])
    (hok : ∀ f ∈ factors, FactorOk f) :
    0 < (factors.map fun f => f.weight).sum := by
  apply List.sum_pos
  · intro x hx
    obtain ⟨f, hf, rfl⟩ := List.mem_map.mp hx
    exact (hok f hf).2
  · simpa using hne

theorem weightedScore_nonneg {factors : List AnomalyFactor}
    (hok : ∀ f ∈ factors, FactorOk f) :
    0 ≤ (factors.map fun f => f.score * f.weight).sum := by
  apply List.sum_nonneg
  intro x hx
  obtain ⟨f, hf, rfl⟩ := List.mem_map.mp hx
  exact mul_nonneg (hok f hf).1 (hok f hf).2.le

theorem calculateAnomalyScore_eq {factors : List AnomalyFactor} (hne : factors ≠ [])
    (hok : ∀ f ∈ factors, FactorOk f) :
    calculateAnomalyScore factors =
      ((jsRound (min 100 ((factors.map fun f => f.score * f.weight).sum /
        (factors.map fun f => f.weight).sum)) : ℚ)) := by
  simp only [calculateAnomalyScore]
  rw [if_neg hne, if_pos (totalWeight_pos hne hok)]
  exact jsRound_min_hundred _

theorem calculateAnomalyScore_bounds {factors : List AnomalyFactor}
    (hok : ∀ f ∈ factors, FactorOk f) :
    0 ≤ calculateAnomalyScore factors ∧ calculateAnomalyScore factors ≤ 100 := by
  rcases eq_or_ne factors [] with rfl | hne
  · constructor <;> simp [calculateAnomalyScore]
  · simp only [calculateAnomalyScore]
    rw [if_neg hne, if_pos (totalWeight_pos hne hok)]
    constructor
    · refine le_min (by norm_num) ?_
      have := jsRound_nonneg (div_nonneg (weightedScore_nonneg hok)
        (totalWeight_pos hne hok).le)
      exact_mod_cast this
    · exact min_le_left _ _

theorem calculateAnomalyScore_perm {l l' : List AnomalyFactor} (h : l.Perm l') :
    calculateAnomalyScore l = calculateAnomalyScore l' := by
  simp only [calculateAnomalyScore]
  rw [(h.map fun f => f.score * f.weight).sum_eq, (h.map fun f => f.weight).sum_eq]
  rcases eq_or_ne l [] with rfl | hne
  · rw [h.symm.eq_nil]
  · have hl' : l' ≠ [] := fun hl => hne (by rw [hl] at h; exact h.eq_nil)
    rw [if_neg hne, if_neg hl']

theorem stateAfterUpdate_baseline (s : DetectorState) (packet : NetworkPacket) :
    (stateAfterUpdate s packet).baseline = s.baseline := rfl

theorem stateAfterUpdate_history (s : DetectorState) (packet : NetworkPacket) :
    (stateAfterUpdate s packet).packetHistory = (packet :: s.packetHistory).take 1000 := rfl

/-- A benign first packet used in concrete instantiations: noon UTC, private
source address, common destination port, default-sized, ordinary flags. -/
def benignPacket : NetworkPacket :=
  { timestamp := 43200000
    sourceIP := "192.168.1.5"
    destIP := "192.168.1.9"
    sourcePort := 40000
    destPort := 443
    protocol := "TCP"
    size := 512
    flags := ["ACK"] }

/-! ## Claim theorems -/

/-- C1: for every analyzed event the aggregate score is 0 when zero factors
fired, otherwise `round(min(100, Σ(score×weight)/Σweight))` over the fired
factors, and in every case `0 ≤ score ≤ 100`.  The hypothesis
`0 < normalFrequency` holds for every reachable state: the field is set to 10
by `initializeBaseline` and never modified (see C10). -/
theorem c1_aggregate_score (now : Int) (s : DetectorState) (packet : NetworkPacket)
    (hnf : 0 < s.baseline.normalFrequency) :
    ((analyzePacket now s packet).1.factors = [] → (analyzePacket now s packet).1.score = 0) ∧
    ((analyzePacket now s packet).1.factors ≠ [] →
      (analyzePacket now s packet).1.score =
        ((jsRound (min 100
          (((analyzePacket now s packet).1.factors.map fun f => f.score * f.weight).sum /
           ((analyzePacket now s packet).1.factors.map fun f => f.weight).sum)) : ℚ))) ∧
    0 ≤ (analyzePacket now s packet).1.score ∧ (analyzePacket now s packet).1.score ≤ 100 := by
  by_cases hnil : passFactors now (stateAfterUpdate s packet) packet = []
  · have hfac : (analyzePacket now s packet).1.factors = [] := by
      rw [analyzePacket_fst_factors, if_pos hnil, hnil]
    have hsc : (analyzePacket now s packet).1.score = 0 := by
      rw [analyzePacket_fst_score, hnil]
      rfl
    refine ⟨fun _ => hsc, fun hcon => absurd hfac hcon, ?_, ?_⟩
    · rw [hsc]
    · rw [hsc]; norm_num
  · have hperm : ((analyzePacket now s packet).1.factors).Perm
        (passFactors now (stateAfterUpdate s packet) packet) := by
      rw [analyzePacket_fst_factors, if_neg hnil]
      exact sortByPriorityDesc_perm _
    have hok : ∀ f ∈ passFactors now (stateAfterUpdate s packet) packet, FactorOk f :=
      passFactors_ok _ _ _ (by rw [stateAfterUpdate_baseline]; exact hnf)
    have hok' : ∀ f ∈ (analyzePacket now s packet).1.factors, FactorOk f :=
      fun f hf => hok f (hperm.subset hf)
    have hne' : (analyzePacket now s packet).1.factors ≠ [] := by
      rw [analyzePacket_fst_factors, if_neg hnil]
      exact sortByPriorityDesc_ne_nil hnil
    have hsc : (analyzePacket now s packet).1.score =
        calculateAnomalyScore ((analyzePacket now s packet).1.factors) := by
      rw [analyzePacket_fst_score]
      exact (calculateAnomalyScore_perm hperm).symm
    have hb := calculateAnomalyScore_bounds hok'
    refine ⟨fun hcon => absurd hcon hne',
      fun _ => by rw [hsc, calculateAnomalyScore_eq hne' hok'], ?_, ?_⟩
    · rw [hsc]; exact hb.1
    · rw [hsc]; exact hb.2

theorem c1_aggregate_score_witness :
    (0 : ℚ) < initialState.baseline.normalFrequency ∧
    (((analyzePacket 43200000 initialState benignPacket).1.factors = [] →
        (analyzePacket 43200000 initialState benignPacket).1.score = 0) ∧
     ((analyzePacket 43200000 initialState benignPacket).1.factors ≠ [] →
        (analyzePacket 43200000 initialState benignPacket).1.score =
          ((jsRound (min 100
            (((analyzePacket 43200000 initialState benignPacket).1.factors.map
                fun f => f.score * f.weight).sum /
             ((analyzePacket 43200000 initialState benignPacket).1.factors.map
                fun f => f.weight).sum)) : ℚ))) ∧
     0 ≤ (analyzePacket 43200000 initialState benignPacket).1.score ∧
     (analyzePacket 43200000 initialState benignPacket).1.score ≤ 100) :=
  ⟨by norm_num [initialState, initializeBaseline],
   c1_aggregate_score 43200000 initialState benignPacket
     (by norm_num [initialState, initializeBaseline])⟩

/-- C2: the verdict of every analysis is `determineVerdict` of its aggregate
score — never set independently — and `determineVerdict` maps score ranges to
verdicts exactly as the fixed thresholds state. -/
theorem c2_verdict_thresholds (now : Int) (s : DetectorState) (packet : NetworkPacket)
    (x : ℚ) :
    (analyzePacket now s packet).1.verdict =
      determineVerdict (analyzePacket now s packet).1.score ∧
    (80 ≤ x → determineVerdict x = Verdict.MALICIOUS) ∧
    ((60 ≤ x ∧ x < 80) → determineVerdict x = Verdict.ANOMALOUS) ∧
    ((30 ≤ x ∧ x < 60) → determineVerdict x = Verdict.SUSPICIOUS) ∧
    (x < 30 → determineVerdict x = Verdict.NORMAL) := by
  refine ⟨analyzePacket_fst_verdict now s packet, ?_, ?_, ?_, ?_⟩
  · intro h
    rw [determineVerdict, if_pos h]
  · intro h
    rw [determineVerdict, if_neg (by linarith [h.2]), if_pos h.1]
  · intro h
    rw [determineVerdict, if_neg (by linarith [h.2]), if_neg (by linarith [h.2]),
      if_pos h.1]
  · intro h
    rw [determineVerdict, if_neg (by linarith), if_neg (by linarith),
      if_neg (by linarith)]

theorem runEvents_length (evs : List (Int × NetworkPacket)) :
    ∀ s : DetectorState, s.packetHistory.length ≤ 1000 →
      (runEvents evs s).packetHistory.length =
        min (s.packetHistory.length + evs.length) 1000 := by
  induction evs with
  | nil =>
    intro s h
    simp only [runEvents, List.foldl_nil, List.length_nil]
    omega
  | cons e t ih =>
    intro s h
    have hstep : runEvents (e :: t) s = runEvents t (analyzePacket e.1 s e.2).2 := rfl
    have hlen : ((analyzePacket e.1 s e.2).2).packetHistory.length =
        min 1000 (s.packetHistory.length + 1) := by
      rw [analyzePacket_snd, stateAfterUpdate_history, List.length_take, List.length_cons]
    rw [hstep, ih _ (by omega), hlen, List.length_cons]
    omega

/-- C7: every `analyzePacket` call prepends the event to the history and keeps
only the 1000 most recent events, so after any sequence of calls (e.g. 1500)
the retained history reported by `getStatistics` holds at most 1000 events. -/
theorem c7_history_cap (now : Int) (s : DetectorState) (packet : NetworkPacket)
    (evs : List (Int × NetworkPacket)) (h : s.packetHistory.length ≤ 1000) :
    (analyzePacket now s packet).2.packetHistory = (packet :: s.packetHistory).take 1000 ∧
    (runEvents evs s).packetHistory.length =
      min (s.packetHistory.length + evs.length) 1000 ∧
    (getStatistics (runEvents evs s)).totalPackets ≤ 1000 := by
  refine ⟨rfl, runEvents_length evs s h, ?_⟩
  show (runEvents evs s).packetHistory.length ≤ 1000
  rw [runEvents_length evs s h]
  omega

theorem c7_history_cap_witness :
    initialState.packetHistory.length ≤ 1000 ∧
    ((analyzePacket 43200000 initialState benignPacket).2.packetHistory =
        (benignPacket :: initialState.packetHistory).take 1000 ∧
     (runEvents (List.replicate 1500 (43200000, benignPacket)) initialState).packetHistory.length =
        min (initialState.packetHistory.length +
          (List.replicate 1500 ((43200000 : Int), benignPacket)).length) 1000 ∧
     (getStatistics (runEvents (List.replicate 1500 (43200000, benignPacket))
        initialState)).totalPackets ≤ 1000) :=
  ⟨by decide,
   c7_history_cap 43200000 initialState benignPacket
     (List.replicate 1500 (43200000, benignPacket)) (by decide)⟩

/-- C8: `updateBaseline` with fewer than 100 events is a pure no-op: the state
is unchanged, so `getBaseline` returns the same value before and after. -/
theorem c8_updateBaseline_noop (s : DetectorState) (packets : List NetworkPacket)
    (h : packets.length < 100) :
    updateBaseline s packets = s ∧
    getBaseline (updateBaseline s packets) = getBaseline s := by
  have he : updateBaseline s packets = s := by rw [updateBaseline, if_pos h]
  exact ⟨he, by rw [he]⟩

theorem c8_updateBaseline_noop_witness :
    ([] : List NetworkPacket).length < 100 ∧
    (updateBaseline initialState [] = initialState ∧
     getBaseline (updateBaseline initialState []) = getBaseline initialState) :=
  ⟨by decide, c8_updateBaseline_noop initialState [] (by decide)⟩

theorem signature_factor_mem (packet : NetworkPacket) (sig : SigPattern × String)
    (hs : sig ∈ malwareSignatures) (hm : matchesSignature packet sig.1 = true) :
    ({ type := .SIGNATURE, description := sig.2, score := 95, weight := 0.4,
       evidence := "Packet matches signature" } : AnomalyFactor) ∈ analyzeSignatures packet := by
  simp only [analyzeSignatures, List.mem_append]
  exact Or.inl (List.mem_filterMap.mpr ⟨sig, hs, by rw [if_pos hm]⟩)

theorem mem_factors_of_mem_signatures {f : AnomalyFactor} (now : Int) (s : DetectorState)
    (packet : NetworkPacket) (hf : f ∈ analyzeSignatures packet) :
    f ∈ (analyzePacket now s packet).1.factors := by
  have hpass : f ∈ passFactors now (stateAfterUpdate s packet) packet := by
    simp only [passFactors, List.mem_append]
    exact Or.inr hf
  have hne : passFactors now (stateAfterUpdate s packet) packet ≠ [] :=
    fun hphi => List.not_mem_nil f (hphi ▸ hpass)
  rw [analyzePacket_fst_factors, if_neg hne]
  exact mem_sortByPriorityDesc.mpr hpass

/-- C9: an event of size exactly 1337, or with destination or source port
exactly 4444 or 31337, always yields a SIGNATURE factor with score 95 and
weight 0.4 among the returned factors; an event whose flags contain both SYN
and FIN always yields the invalid-flag-combination SIGNATURE factor with
score 90 and weight 0.35. -/
theorem c9_signature_rules (now : Int) (s : DetectorState) (packet : NetworkPacket) :
    ((packet.size = 1337 ∨ packet.destPort = 4444 ∨ packet.sourcePort = 4444 ∨
        packet.destPort = 31337 ∨ packet.sourcePort = 31337) →
      ∃ f ∈ (analyzePacket now s packet).1.factors,
        f.type = FactorType.SIGNATURE ∧ f.score = 95 ∧ f.weight = 0.4) ∧
    (("SYN" ∈ packet.flags ∧ "FIN" ∈ packet.flags) →
      ∃ f ∈ (analyzePacket now s packet).1.factors,
        f.type = FactorType.SIGNATURE ∧ f.description = "Invalid TCP flag combination" ∧
          f.score = 90 ∧ f.weight = 0.35) := by
  constructor
  · intro h
    rcases h with h | h | h | h | h
    · exact ⟨_, mem_factors_of_mem_signatures now s packet
        (signature_factor_mem packet (.size 1337, "Known malware packet size")
          (by simp [malwareSignatures]) (by simp [matchesSignature, h])),
        rfl, rfl, rfl⟩
    · exact ⟨_, mem_factors_of_mem_signatures now s packet
        (signature_factor_mem packet (.port 4444, "Common backdoor port")
          (by simp [malwareSignatures]) (by simp [matchesSignature, h])),
        rfl, rfl, rfl⟩
    · exact ⟨_, mem_factors_of_mem_signatures now s packet
        (signature_factor_mem packet (.port 4444, "Common backdoor port")
          (by simp [malwareSignatures]) (by simp [matchesSignature, h])),
        rfl, rfl, rfl⟩
    · exact ⟨_, mem_factors_of_mem_signatures now s packet
        (signature_factor_mem packet (.port 31337, "Elite hacker port")
          (by simp [malwareSignatures]) (by simp [matchesSignature, h])),
        rfl, rfl, rfl⟩
    · exact ⟨_, mem_factors_of_mem_signatures now s packet
        (signature_factor_mem packet (.port 31337, "Elite hacker port")
          (by simp [malwareSignatures]) (by simp [matchesSignature, h])),
        rfl, rfl, rfl⟩
  · intro h
    refine ⟨{ type := .SIGNATURE, description := "Invalid TCP flag combination",
              score := 90, weight := 0.35,
              evidence := "SYN and FIN flags set simultaneously (TCP stealth scan)" },
      mem_factors_of_mem_signatures now s packet ?_, rfl, rfl, rfl, rfl⟩
    simp only [analyzeSignatures, List.mem_append]
    right
    rw [if_pos h]
    exact List.mem_singleton_self _

/-- C10: `updateBaseline` only ever rewrites `avgPacketSize`,
`typicalProtocols` and `commonPorts`; `normalFrequency` and
`establishedConnections` (and every non-baseline state field) are untouched by
every call, and their hard-coded initial values are 10 packets/sec and the
three trusted addresses. -/
theorem c10_updateBaseline_frame (s : DetectorState) (packets : List NetworkPacket) :
    (updateBaseline s packets).baseline.normalFrequency = s.baseline.normalFrequency ∧
    (updateBaseline s packets).baseline.establishedConnections =
      s.baseline.establishedConnections ∧
    (updateBaseline s packets).packetHistory = s.packetHistory ∧
    (updateBaseline s packets).connectionPatterns = s.connectionPatterns ∧
    (updateBaseline s packets).protocolStats = s.protocolStats ∧
    (updateBaseline s packets).portStats = s.portStats ∧
    initializeBaseline.normalFrequency = 10 ∧
    initializeBaseline.establishedConnections = ["192.168.1.1", "8.8.8.8", "1.1.1.1"] := by
  rw [updateBaseline]
  split_ifs <;> exact ⟨rfl, rfl, rfl, rfl, rfl, rfl, rfl, rfl⟩

/-- A packet firing several factors of different priorities: the small-size
SIZE factor, the uncommon-port PROTOCOL factor, the new-connection BEHAVIOR
factor and the port-4444 SIGNATURE factor, in that invocation order. -/
def mixedPacket : NetworkPacket :=
  { timestamp := 43200000
    sourceIP := "192.168.1.5"
    destIP := "192.168.1.9"
    sourcePort := 1000
    destPort := 4444
    protocol := "TCP"
    size := 10
    flags := [] }

/-- C3 counterexample: for `mixedPacket` on a fresh engine the analyzer passes
fire, in invocation order, a SIZE, a PROTOCOL, a BEHAVIOR and a SIGNATURE
factor — but the factors of the returned result are NOT in that order: the
SIGNATURE factor (score×weight 38) comes first although the signature pass
runs last, because `generateExplanation` sorts the shared array in place. -/
theorem c3_counterexample :
    ((passFactors 43200000 (stateAfterUpdate initialState mixedPacket) mixedPacket).map
        fun f => f.type) =
      [FactorType.SIZE, FactorType.PROTOCOL, FactorType.BEHAVIOR, FactorType.SIGNATURE] ∧
    ((analyzePacket 43200000 initialState mixedPacket).1.factors.map fun f => f.type) =
      [FactorType.SIGNATURE, FactorType.SIZE, FactorType.PROTOCOL, FactorType.BEHAVIOR] := by
  constructor <;>
    norm_num +decide [analyzePacket, stateAfterUpdate, updateStatistics, passFactors,
      analyzePacketSize, analyzeFrequency, analyzeProtocol, analyzePorts, analyzeTiming,
      analyzeGeolocation, analyzeBehavior, analyzeSignatures, matchesSignature,
      malwareSignatures, mapGetD, mapIncr, initialState, initializeBaseline, mixedPacket,
      jsHours, vulnerablePorts, calculateAnomalyScore, jsRound, generateExplanation,
      sortByPriorityDesc, stableSort, insertIf, factorPriority, List.filter]

/-- C3 (amended): the eight analyzer passes accumulate factors in the fixed
invocation order (`passFactors`), but before the result record is assembled
`generateExplanation` sorts that very array in place by score×weight
descending (stable), so the factor sequence of the returned result is the
stable sort of the invocation-order list, not the invocation order itself;
pass order never affects the aggregate score, which is computed from the
pre-sort list and is invariant under any permutation of the factors. -/
theorem c3_factors_order (now : Int) (s : DetectorState) (packet : NetworkPacket) :
    (analyzePacket now s packet).1.factors =
      (if passFactors now (stateAfterUpdate s packet) packet = [] then []
       else sortByPriorityDesc (passFactors now (stateAfterUpdate s packet) packet)) ∧
    (analyzePacket now s packet).1.score =
      calculateAnomalyScore (passFactors now (stateAfterUpdate s packet) packet) ∧
    ∀ l l2 : List AnomalyFactor, l.Perm l2 →
      calculateAnomalyScore l = calculateAnomalyScore l2 := by
  refine ⟨?_, analyzePacket_fst_score now s packet,
    fun l l2 h => calculateAnomalyScore_perm h⟩
  rw [analyzePacket_fst_factors]
  split_ifs with h
  · exact h
  · rfl

/-- Packets from one source to pairwise distinct destination ports, all at
timestamp 0: the history for the wall-clock dependence counterexample. -/
def scanPacket (i : Nat) : NetworkPacket :=
  { timestamp := 0
    sourceIP := "10.0.0.1"
    destIP := "10.0.0.2"
    sourcePort := 1000
    destPort := 100 + i
    protocol := "TCP"
    size := 512
    flags := [] }

/-- An engine state holding 21 scan packets as its history. -/
def scanState : DetectorState :=
  { initialState with packetHistory := (List.range 21).map scanPacket }

set_option maxHeartbeats 4000000 in
/-- C4 counterexample: the identical event analyzed from the identical engine
state yields different scores when only the wall clock (`Date.now()`) differs:
at `now = 0` the 60-second behavior window still contains the 21-port scan,
at `now = 1000000` it is empty — so the windows are not determined by the
event's and the history's timestamps alone. -/
theorem c4_counterexample :
    (analyzePacket 0 scanState (scanPacket 21)).1.score ≠
      (analyzePacket 1000000 scanState (scanPacket 21)).1.score := by
  norm_num +decide [analyzePacket, stateAfterUpdate, updateStatistics, passFactors,
    analyzePacketSize, analyzeFrequency, analyzeProtocol, analyzePorts, analyzeTiming,
    analyzeGeolocation, analyzeBehavior, analyzeSignatures, matchesSignature, malwareSignatures,
    mapGetD, mapIncr, initialState, initializeBaseline, scanState, scanPacket, jsHours,
    vulnerablePorts, calculateAnomalyScore, jsRound, generateExplanation, sortByPriorityDesc,
    stableSort, insertIf, factorPriority, List.filter, List.range_succ]

theorem filterCongr {l : List α} {p q : α → Bool}
    (h : ∀ a ∈ l, p a = q a) : l.filter p = l.filter q := by
  induction l with
  | nil => rfl
  | cons a t ih =>
    simp only [List.filter_cons, h a (List.mem_cons_self a t),
      ih fun b hb => h b (List.mem_cons_of_mem a hb)]

/-- C4 (amended): scoring is deterministic given the event, the engine state
AND the wall-clock reading passed for `Date.now()`: the result depends on the
wall clock only through the 10-second, 1-second and 60-second window
predicates over the retained history, so whenever two readings classify every
history entry identically the two analyses agree completely (the 100 ms
rapid-sequential window of `analyzeTiming`, and every other pass, never reads
the wall clock). -/
theorem c4_determinism (now now2 : Int) (s : DetectorState) (packet : NetworkPacket)
    (hwin : ∀ p ∈ (stateAfterUpdate s packet).packetHistory,
      ((now - p.timestamp < 10000) ↔ (now2 - p.timestamp < 10000)) ∧
      ((now - p.timestamp < 1000) ↔ (now2 - p.timestamp < 1000)) ∧
      ((now - p.timestamp < 60000) ↔ (now2 - p.timestamp < 60000))) :
    analyzePacket now s packet = analyzePacket now2 s packet := by
  have hfreq : analyzeFrequency now (stateAfterUpdate s packet) packet =
      analyzeFrequency now2 (stateAfterUpdate s packet) packet := by
    simp only [analyzeFrequency]
    rw [filterCongr (fun p hp => decide_eq_decide.mpr
        (and_congr_left fun _ => (hwin p hp).1)),
      filterCongr (fun p hp => decide_eq_decide.mpr
        (and_congr_left fun _ => (hwin p hp).2.1))]
  have hbeh : analyzeBehavior now (stateAfterUpdate s packet) packet =
      analyzeBehavior now2 (stateAfterUpdate s packet) packet := by
    simp only [analyzeBehavior]
    rw [filterCongr (fun p hp => decide_eq_decide.mpr
        (and_congr_right fun _ => (hwin p hp).2.2))]
  have hpass : passFactors now (stateAfterUpdate s packet) packet =
      passFactors now2 (stateAfterUpdate s packet) packet := by
    rw [passFactors, passFactors, hfreq, hbeh]
  simp only [analyzePacket, hpass]

theorem c4_determinism_witness :
    (∀ p ∈ (stateAfterUpdate initialState benignPacket).packetHistory,
      (((0 : Int) - p.timestamp < 10000) ↔ ((7 : Int) - p.timestamp < 10000)) ∧
      (((0 : Int) - p.timestamp < 1000) ↔ ((7 : Int) - p.timestamp < 1000)) ∧
      (((0 : Int) - p.timestamp < 60000) ↔ ((7 : Int) - p.timestamp < 60000))) ∧
    analyzePacket 0 initialState benignPacket = analyzePacket 7 initialState benignPacket :=
  ⟨by decide, c4_determinism 0 7 initialState benignPacket (by decide)⟩

/-- One hundred kilobyte-sized packets used to recompute the baseline. -/
def heavyPackets : List NetworkPacket :=
  List.replicate 100
    { timestamp := 43200000
      sourceIP := "192.168.1.5"
      destIP := "192.168.1.9"
      sourcePort := 40000
      destPort := 80
      protocol := "TCP"
      size := 1000
      flags := [] }

/-- C5 counterexample: analyze one packet, then call `updateBaseline` with 100
packets of size 1000; the baseline now read through the previously returned
result (which aliases the engine's live baseline object) is no longer the
baseline recorded at analysis time — its average moved from 512 to 1000. -/
theorem c5_counterexample :
    readResultBaseline
        (updateBaseline (analyzePacket 43200000 initialState benignPacket).2 heavyPackets) ≠
      (analyzePacket 43200000 initialState benignPacket).1.baseline := by
  intro heq
  have h1 : (readResultBaseline
      (updateBaseline (analyzePacket 43200000 initialState benignPacket).2
        heavyPackets)).avgPacketSize = 1000 := by
    rw [readResultBaseline, updateBaseline, if_neg (by norm_num [heavyPackets])]
    norm_num [heavyPackets, List.map_replicate, List.sum_replicate]
  have h2 : ((analyzePacket 43200000 initialState benignPacket).1.baseline).avgPacketSize =
      512 := rfl
  rw [heq, h2] at h1
  norm_num at h1

/-- C5 (amended): the `baseline` field of a returned `AnomalyAnalysis` aliases
the engine's live baseline object rather than holding an immutable snapshot:
straight after the analysis the read agrees with the recorded value, it stays
unchanged under a subsequent `updateBaseline` with fewer than 100 events (a
no-op), but after a recompute with 100 or more events the value read through
the previously returned result is the recomputed average size, not the
snapshot. -/
theorem c5_baseline_alias (now : Int) (s : DetectorState) (packet : NetworkPacket)
    (packets : List NetworkPacket) :
    readResultBaseline (analyzePacket now s packet).2 =
      (analyzePacket now s packet).1.baseline ∧
    (packets.length < 100 →
      readResultBaseline (updateBaseline (analyzePacket now s packet).2 packets) =
        (analyzePacket now s packet).1.baseline) ∧
    (100 ≤ packets.length →
      (readResultBaseline
          (updateBaseline (analyzePacket now s packet).2 packets)).avgPacketSize =
        (packets.map fun p => p.size).sum / ((packets.map fun p => p.size).length : ℚ)) := by
  refine ⟨rfl, ?_, ?_⟩
  · intro h
    rw [updateBaseline, if_pos h]
    rfl
  · intro h
    rw [updateBaseline, if_neg (by omega)]
    rfl

/-- C6 counterexample: on a freshly initialized engine, analyzing the
unremarkable `benignPacket` (512 bytes, destination port 443, TCP, private
source, noon) does NOT fire zero factors and does not yield a near-zero
score: the first-observed-connection BEHAVIOR factor fires and the aggregate
score is 20. -/
theorem c6_counterexample :
    (analyzePacket 43200000 initialState benignPacket).1.factors ≠ [] ∧
    (analyzePacket 43200000 initialState benignPacket).1.score = 20 := by
  constructor <;>
    norm_num +decide [analyzePacket, stateAfterUpdate, updateStatistics, passFactors,
      analyzePacketSize, analyzeFrequency, analyzeProtocol, analyzePorts, analyzeTiming,
      analyzeGeolocation, analyzeBehavior, analyzeSignatures, matchesSignature,
      malwareSignatures, mapGetD, mapIncr, initialState, initializeBaseline, benignPacket,
      jsHours, vulnerablePorts, calculateAnomalyScore, jsRound, generateExplanation,
      sortByPriorityDesc, stableSort, insertIf, factorPriority, List.filter]

theorem mapGetD_singleton [DecidableEq α] (k : α) (n : Nat) : mapGetD [(k, n)] k = n := by
  rw [mapGetD, List.find?_cons_of_pos _ (by simp)]

theorem stateAfterUpdate_initial_history (packet : NetworkPacket) :
    (stateAfterUpdate initialState packet).packetHistory = [packet] := rfl

theorem stateAfterUpdate_initial_conn (packet : NetworkPacket) :
    (stateAfterUpdate initialState packet).connectionPatterns =
      [(packet.sourceIP ++ ":" ++ packet.destIP, 1)] := rfl

/-- C6 (amended): on a freshly initialized engine (empty history, default
baseline), an unremarkable first event — size between 20 and 1536 bytes (so
the deviation from the 512-byte default stays within 200%) and not the 1337
signature size, a default common destination port, a default typical protocol
without the UDP-to-TCP-port mismatch, source port at most 60000 and not a
signature port, a private non-suspicious source address, a business-hours
timestamp, and no SYN+FIN flag pair — fires exactly one factor: the
first-observed-connection BEHAVIOR factor (score 20, weight 0.05).  The
aggregate score is therefore 20 (not 0) with a NORMAL verdict; `analyzePacket`
is a total function by construction, so it always returns a result. -/
theorem c6_cold_start (now : Int) (packet : NetworkPacket)
    (hsize1 : 20 ≤ packet.size) (hsize2 : packet.size ≤ 1536)
    (hsig : packet.size ≠ 1337)
    (hport : packet.destPort ∈ initializeBaseline.commonPorts)
    (hproto : packet.protocol ∈ initializeBaseline.typicalProtocols)
    (hudp : ¬(packet.protocol = "UDP" ∧ packet.destPort ∈ [22, 23, 80, 443]))
    (hsp : packet.sourcePort ≤ 60000)
    (hsp4 : packet.sourcePort ≠ 4444) (hsp31 : packet.sourcePort ≠ 31337)
    (hpriv : isPrivateIP packet.sourceIP = true)
    (hsusp : isSuspiciousIP packet.sourceIP = false)
    (hhour1 : 6 ≤ jsHours packet.timestamp) (hhour2 : jsHours packet.timestamp ≤ 22)
    (hflags : ¬("SYN" ∈ packet.flags ∧ "FIN" ∈ packet.flags)) :
    ((analyzePacket now initialState packet).1.factors.map fun f => f.description) =
      ["New connection established"] ∧
    (analyzePacket now initialState packet).1.score = 20 ∧
    (analyzePacket now initialState packet).1.verdict = Verdict.NORMAL := by
  have hport2 : packet.destPort = 80 ∨ packet.destPort = 443 ∨ packet.destPort = 22 ∨
      packet.destPort = 21 ∨ packet.destPort = 25 ∨ packet.destPort = 53 ∨
      packet.destPort = 110 ∨ packet.destPort = 143 ∨ packet.destPort = 993 ∨
      packet.destPort = 995 := by
    simpa [initializeBaseline] using hport
  have hproto2 : packet.protocol = "TCP" ∨ packet.protocol = "UDP" ∨
      packet.protocol = "HTTP" ∨ packet.protocol = "HTTPS" := by
    simpa [initializeBaseline] using hproto
  have hdv : packet.destPort ∉ vulnerablePorts := by
    rcases hport2 with h|h|h|h|h|h|h|h|h|h <;> rw [h] <;> decide
  have hd4 : packet.destPort ≠ 4444 := by
    rcases hport2 with h|h|h|h|h|h|h|h|h|h <;> rw [h] <;> decide
  have hd31 : packet.destPort ≠ 31337 := by
    rcases hport2 with h|h|h|h|h|h|h|h|h|h <;> rw [h] <;> decide
  have hICMP : packet.protocol ≠ "ICMP" := by
    rcases hproto2 with h|h|h|h <;> rw [h] <;> decide
  have hA1 : analyzePacketSize (stateAfterUpdate initialState packet) packet = [] := by
    have havg : (stateAfterUpdate initialState packet).baseline.avgPacketSize = 512 := rfl
    simp only [analyzePacketSize, havg]
    have h1 : ¬ (2 < |packet.size - 512| / 512) := by
      rw [not_lt, div_le_iff₀ (by norm_num : (0:ℚ) < 512), abs_le]
      constructor <;> linarith
    have h2 : ¬ ((10000 : ℚ) < packet.size) := by
      rw [not_lt]
      linarith
    have h3 : ¬ (packet.size < 20 ∧ packet.protocol ≠ "ICMP") :=
      fun hc => absurd hc.1 (not_lt.mpr hsize1)
    rw [if_neg h1, if_neg h2, if_neg h3]
    rfl
  have hb : (stateAfterUpdate initialState packet).baseline = initializeBaseline := rfl
  have hA2 : analyzeFrequency now (stateAfterUpdate initialState packet) packet = [] := by
    have hnf : (stateAfterUpdate initialState packet).baseline.normalFrequency = 10 := rfl
    simp only [analyzeFrequency, hnf, stateAfterUpdate_initial_history, List.filter_singleton,
      cond_eq_if, decide_eq_true_eq]
    split_ifs <;> first | rfl | (exfalso; norm_num at *)
  have hA3 : analyzeProtocol (stateAfterUpdate initialState packet) packet = [] := by
    simp only [analyzeProtocol, hb]
    have h2 : ¬ (packet.protocol = "ICMP" ∧ (1000:ℚ) < packet.size) := fun hc => hICMP hc.1
    rw [if_neg (not_not_intro hproto), if_neg h2, if_neg hudp]
    rfl
  have hA4 : analyzePorts (stateAfterUpdate initialState packet) packet = [] := by
    simp only [analyzePorts, hb]
    have h2 : ¬ (60000 < packet.sourcePort) := not_lt.mpr hsp
    rw [if_neg (not_not_intro hport), if_neg h2, if_neg hdv]
    rfl
  have hA5 : analyzeTiming (stateAfterUpdate initialState packet) packet = [] := by
    simp only [analyzeTiming, stateAfterUpdate_initial_history, List.filter_singleton,
      cond_eq_if, decide_eq_true_eq]
    have h1 : ¬ (jsHours packet.timestamp < 6 ∨ 22 < jsHours packet.timestamp) := by
      rw [not_or, not_lt, not_lt]
      exact ⟨hhour1, hhour2⟩
    rw [if_neg h1]
    split_ifs <;> first | rfl | (exfalso; norm_num at *)
  have hA6 : analyzeGeolocation (stateAfterUpdate initialState packet) packet = [] := by
    simp only [analyzeGeolocation]
    have h1 : ¬ (¬ (isPrivateIP packet.sourceIP = true) ∧
        packet.sourceIP ∉ (stateAfterUpdate initialState packet).baseline.establishedConnections) :=
      fun hc => hc.1 hpriv
    have h2 : ¬ (isSuspiciousIP packet.sourceIP = true) := by
      rw [hsusp]
      exact Bool.false_ne_true
    rw [if_neg h1, if_neg h2]
    rfl
  have hA7 : analyzeBehavior now (stateAfterUpdate initialState packet) packet =
      [{ type := .BEHAVIOR
         description := "New connection established"
         score := 20
         weight := 0.05
         evidence := "First observed connection between " ++ packet.sourceIP
           ++ " and " ++ packet.destIP }] := by
    simp only [analyzeBehavior, stateAfterUpdate_initial_history, stateAfterUpdate_initial_conn,
      List.filter_singleton, mapGetD_singleton, cond_eq_if, decide_eq_true_eq]
    split_ifs <;> first | rfl | (exfalso; norm_num [List.dedup_nil, List.dedup_cons_of_not_mem] at *)
  have hA8 : analyzeSignatures packet = [] := by
    have m1 : matchesSignature packet (SigPattern.size 1337) = false := by
      simp [matchesSignature, hsig]
    have m2 : matchesSignature packet (SigPattern.port 4444) = false := by
      simp [matchesSignature, hd4, hsp4]
    have m3 : matchesSignature packet (SigPattern.port 31337) = false := by
      simp [matchesSignature, hd31, hsp31]
    simp only [analyzeSignatures, malwareSignatures, List.filterMap_cons, List.filterMap_nil,
      m1, m2, m3, Bool.false_eq_true, if_false, List.nil_append]
    rw [if_neg hflags]
  have hpass : passFactors now (stateAfterUpdate initialState packet) packet =
      [{ type := .BEHAVIOR
         description := "New connection established"
         score := 20
         weight := 0.05
         evidence := "First observed connection between " ++ packet.sourceIP
           ++ " and " ++ packet.destIP }] := by
    rw [passFactors, hA1, hA2, hA3, hA4, hA5, hA6, hA7, hA8]
    rfl
  have hne : passFactors now (stateAfterUpdate initialState packet) packet ≠ [] := by
    rw [hpass]
    exact List.cons_ne_nil _ _
  have hfac : (analyzePacket now initialState packet).1.factors =
      [{ type := .BEHAVIOR
         description := "New connection established"
         score := 20
         weight := 0.05
         evidence := "First observed connection between " ++ packet.sourceIP
           ++ " and " ++ packet.destIP }] := by
    rw [analyzePacket_fst_factors, if_neg hne, hpass]
    rfl
  have hscore : (analyzePacket now initialState packet).1.score = 20 := by
    rw [analyzePacket_fst_score, hpass]
    norm_num [calculateAnomalyScore, jsRound]
  have hverd : (analyzePacket now initialState packet).1.verdict = Verdict.NORMAL := by
    rw [analyzePacket_fst_verdict, hscore, determineVerdict]
    norm_num
  refine ⟨?_, hscore, hverd⟩
  rw [hfac]
  rfl

theorem c6_cold_start_witness :
    ((analyzePacket 43200000 initialState benignPacket).1.factors.map
        fun f => f.description) = ["New connection established"] ∧
    (analyzePacket 43200000 initialState benignPacket).1.score = 20 ∧
    (analyzePacket 43200000 initialState benignPacket).1.verdict = Verdict.NORMAL :=
  c6_cold_start 43200000 benignPacket (by norm_num [benignPacket])
    (by norm_num [benignPacket]) (by norm_num [benignPacket]) (by decide) (by decide)
    (by decide) (by decide) (by decide) (by decide) (by decide) (by decide) (by decide)
    (by decide) (by decide)
